import Mathlib

/-!
Verification of the modernized CSV processing script
(`old_code_modernized.py`): a shallow embedding of `read_csv`,
`filter_by_column` and `print_data`, and theorems about their behaviour.

Rows are `List String`, a Table is `List (List String)`.  Python's
fallible functions are embedded as `Except`-returning Lean functions;
`print_data` returns the list of lines it prints; the filesystem is a
map from paths to (already decoded) file contents.
-/

namespace CsvRepo

/-- Errors that `filter_by_column` can raise: `invalidArgument` embeds the
Python `ValueError` for a negative column index, `outOfRange` embeds the
`IndexError` for an index at or beyond the first row's width. -/
inductive FilterError where
  | invalidArgument
  | outOfRange
deriving DecidableEq, Repr

/-- The per-row predicate of the list comprehension in `filter_by_column`:
`len(row) > column_index and row[column_index] == target_value`. -/
def matchesRow (column_index : Int) (target_value : String)
    (row : List String) : Bool :=
  decide (column_index < (row.length : Int)) &&
    (row.getD column_index.toNat "" == target_value)

/-- Embedding of `filter_by_column(data, column_index, target_value)`:
empty-data early return, negative-index check, reference-width check
against `len(data[0])`, then the filtering list comprehension. -/
def filter_by_column (data : List (List String)) (column_index : Int)
    (target_value : String) : Except FilterError (List (List String)) :=
  if data.isEmpty then Except.ok []
  else if column_index < 0 then Except.error FilterError.invalidArgument
  else if ((data.headD []).length : Int) ≤ column_index then
    Except.error FilterError.outOfRange
  else Except.ok (data.filter (matchesRow column_index target_value))

/-- `c` repeated `n` times, embedding Python's `c * n` string repetition. -/
def strRepeat (c : Char) (n : Nat) : String :=
  String.mk (List.replicate n c)

/-- Python's `f"{n:3d}"` for a non-negative integer: the decimal digits,
right-aligned in a field of width 3 padded with spaces. -/
def fmtWidth3 (n : Nat) : String :=
  let s := toString n
  if s.length < 3 then strRepeat ' ' (3 - s.length) ++ s else s

/-- One data line of `print_data`: `f"{i+1:3d}: {', '.join(row)}"` where
`i` is the 0-based position of the row. -/
def formatRowLine (i : Nat) (row : List String) : String :=
  fmtWidth3 (i + 1) ++ ": " ++ String.intercalate ", " row

/-- Embedding of `print_data(data, title)` as the list of lines printed:
the title line `"\n{title}:"`, the dash underline, then either the single
line `"No data to display"` (empty table) or one formatted line per row. -/
def print_data (data : List (List String)) (title : String) : List String :=
  ("\n" ++ title ++ ":") :: strRepeat '-' title.length ::
    (if data.isEmpty then ["No data to display"]
     else data.enum.map fun p => formatRowLine p.1 p.2)

/-- The only error of `read_csv` in this model: the Python
`FileNotFoundError` raised when the path does not exist. -/
inductive ReadError where
  | notFound
deriving DecidableEq, Repr

/-- State machine of the `csv.reader` parse (default dialect: delimiter
`,`, quote char `"`, doubled-quote escaping, `\n` / `\r\n` / `\r` row
breaks).  Arguments: remaining input, current field (reversed), fields of
the current row (reversed), whether the current line has consumed any
character, whether we are inside a quoted field. -/
def csvParseAux : List Char → List Char → List String → Bool → Bool →
    List (List String)
  | [], field, row, active, _ =>
    if active then [(String.mk field.reverse :: row).reverse] else []
  | '"' :: '"' :: cs, field, row, active, true =>
    csvParseAux cs ('"' :: field) row active true
  | '"' :: cs, field, row, active, true =>
    csvParseAux cs field row active false
  | c :: cs, field, row, active, true =>
    csvParseAux cs (c :: field) row active true
  | ',' :: cs, field, row, _, false =>
    csvParseAux cs [] (String.mk field.reverse :: row) true false
  | '\r' :: '\n' :: cs, field, row, active, false =>
    (if active then (String.mk field.reverse :: row).reverse else []) ::
      csvParseAux cs [] [] false false
  | '\n' :: cs, field, row, active, false =>
    (if active then (String.mk field.reverse :: row).reverse else []) ::
      csvParseAux cs [] [] false false
  | '\r' :: cs, field, row, active, false =>
    (if active then (String.mk field.reverse :: row).reverse else []) ::
      csvParseAux cs [] [] false false
  | '"' :: cs, field, row, _, false =>
    if field.isEmpty then csvParseAux cs [] row true true
    else csvParseAux cs ('"' :: field) row true false
  | c :: cs, field, row, _, false =>
    csvParseAux cs (c :: field) row true false

/-- Parse a whole decoded file into a Table, as `csv.reader` does. -/
def csv_parse (s : String) : List (List String) :=
  csvParseAux s.toList [] [] false false

/-- Embedding of `read_csv`: the filesystem is a map `fs` from paths to
decoded contents; a missing path raises `FileNotFoundError`, an existing
one is parsed into a Table. -/
def read_csv (fs : String → Option String) (file_path : String) :
    Except ReadError (List (List String)) :=
  match fs file_path with
  | none => Except.error ReadError.notFound
  | some contents => Except.ok (csv_parse contents)

end CsvRepo

namespace CsvRepo

/-- C4: for every non-negative column index and every target value,
`filter_by_column` on the empty Table returns the empty Table and raises
no error. -/
theorem filter_by_column_empty_table (i : Int) (v : String) (_h : 0 ≤ i) :
    filter_by_column [] i v = Except.ok [] := rfl

/-- Witness for C4 at `i = 0`, `v = "x"`. -/
theorem filter_by_column_empty_table_witness :
    filter_by_column [] 0 "x" = Except.ok [] :=
  filter_by_column_empty_table 0 "x" (by decide)

/-- C9: the emptiness check precedes all argument validation: for every
integer column index, negative or arbitrarily large, `filter_by_column`
on the empty Table returns the empty Table rather than raising
`InvalidArgument` or `OutOfRange`. -/
theorem filter_by_column_empty_precedes_validation (i : Int) (v : String) :
    filter_by_column [] i v = Except.ok [] := rfl

/-- Counterexample to C2 as stated: on the empty Table with column index
`-1`, `filter_by_column` does not raise `ValueError`; it returns the
empty Table, because the emptiness check comes first. -/
theorem filter_by_column_neg_empty_counterexample :
    filter_by_column [] (-1) "x" = Except.ok [] ∧
      filter_by_column [] (-1) "x" ≠ Except.error FilterError.invalidArgument := by
  exact ⟨rfl, fun h => Except.noConfusion h⟩

/-- C2 (amended): on every NON-empty Table, a negative column index makes
`filter_by_column` raise `ValueError` (`InvalidArgument`). -/
theorem filter_by_column_negative_index (data : List (List String))
    (i : Int) (v : String) (hne : data ≠ []) (hneg : i < 0) :
    filter_by_column data i v = Except.error FilterError.invalidArgument := by
  cases data with
  | nil => exact absurd rfl hne
  | cons first rest =>
    simp [filter_by_column, hneg]

/-- Witness for the amended C2 at `[["a"]]`, `i = -1`, `v = "x"`. -/
theorem filter_by_column_negative_index_witness :
    filter_by_column [["a"]] (-1) "x" = Except.error FilterError.invalidArgument :=
  filter_by_column_negative_index [["a"]] (-1) "x" (by decide) (by decide)

/-- C3: on every non-empty Table, a column index at or beyond the field
count of the FIRST row (the reference width, whatever the other rows'
widths are) makes `filter_by_column` raise `IndexError` (`OutOfRange`). -/
theorem filter_by_column_out_of_range (first : List String)
    (rest : List (List String)) (i : Int) (v : String)
    (hge : (first.length : Int) ≤ i) :
    filter_by_column (first :: rest) i v = Except.error FilterError.outOfRange := by
  have hnonneg : (0 : Int) ≤ i := le_trans (by positivity) hge
  simp [filter_by_column, hge, not_lt.mpr hnonneg]

/-- Witness for C3 at a ragged Table whose first row is narrower than the
second: `i = 1` is within the second row but raises `OutOfRange`. -/
theorem filter_by_column_out_of_range_witness :
    ((["a"] : List String).length : Int) ≤ 1 ∧
      filter_by_column [["a"], ["b", "c", "d"]] 1 "b" =
        Except.error FilterError.outOfRange :=
  ⟨by decide, filter_by_column_out_of_range ["a"] [["b", "c", "d"]] 1 "b" (by decide)⟩

/-- C1: on a Table all of whose rows have at least `i + 1` fields, with
`i` a valid index into the first row, `filter_by_column` succeeds and its
output is exactly the in-order sublist of rows whose field at index `i`
equals the target value: soundness, completeness and order-preservation.
(The input Table is untouched: the embedding is a pure function of it.) -/
theorem filter_by_column_sound_complete (data : List (List String))
    (i : Nat) (v : String)
    (hall : ∀ row ∈ data, i < row.length)
    (hi : i < (data.headD []).length) :
    filter_by_column data (i : Int) v =
        Except.ok (data.filter fun row => row.getD i "" == v) ∧
      (∀ row ∈ data.filter (fun row => row.getD i "" == v),
        row.getD i "" = v) ∧
      (data.filter fun row => row.getD i "" == v).Sublist data := by
  refine ⟨?_, ?_, List.filter_sublist data⟩
  · cases data with
    | nil => exact absurd hi (by simp)
    | cons first rest =>
      have hfirst : (i : Int) < ((first :: rest).headD []).length := by
        exact_mod_cast hi
      simp only [filter_by_column, List.isEmpty_cons, Bool.false_eq_true,
        if_false, List.headD_cons] at hfirst ⊢
      rw [if_neg (by omega), if_neg (by simpa using not_le.mpr hfirst)]
      refine congrArg Except.ok (List.filter_congr ?_)
      intro row hrow
      have hlen : (i : Int) < (row.length : Int) := by
        exact_mod_cast hall row hrow
      simp [matchesRow, hlen]
  · intro row hrow
    have := (List.mem_filter.mp hrow).2
    simpa using this

/-- Witness for C1 at the spec's round-trip example: filtering
`[["1","Pen","Books"],["2","Cup","Home"],["3","Atlas","Books"]]` on
column 2 with value `"Books"`. -/
theorem filter_by_column_sound_complete_witness :
    (∀ row ∈ [["1", "Pen", "Books"], ["2", "Cup", "Home"],
        ["3", "Atlas", "Books"]], 2 < row.length) ∧
      filter_by_column
          [["1", "Pen", "Books"], ["2", "Cup", "Home"], ["3", "Atlas", "Books"]]
          ((2 : Nat) : Int) "Books" =
        Except.ok ([["1", "Pen", "Books"], ["2", "Cup", "Home"],
          ["3", "Atlas", "Books"]].filter fun row => row.getD 2 "" == "Books") :=
  ⟨by decide,
    (filter_by_column_sound_complete
      [["1", "Pen", "Books"], ["2", "Cup", "Home"], ["3", "Atlas", "Books"]]
      2 "Books" (by decide) (by decide)).1⟩

/-- C5: with a valid column index for the first row, `filter_by_column`
succeeds without error, and every row with fewer than `i + 1` fields is
absent from the output, exactly as a non-matching row would be. -/
theorem filter_by_column_short_rows (data : List (List String))
    (i : Nat) (v : String) (hi : i < (data.headD []).length) :
    ∃ out, filter_by_column data (i : Int) v = Except.ok out ∧
      ∀ row ∈ data, row.length ≤ i → row ∉ out := by
  cases data with
  | nil => exact absurd hi (by simp)
  | cons first rest =>
    refine ⟨(first :: rest).filter (matchesRow (i : Int) v), ?_, ?_⟩
    · have hfirst : (i : Int) < ((first :: rest).headD []).length := by
        exact_mod_cast hi
      simp only [filter_by_column, List.isEmpty_cons, Bool.false_eq_true,
        if_false, List.headD_cons] at hfirst ⊢
      rw [if_neg (by omega), if_neg (by simpa using not_le.mpr hfirst)]
    · intro row _hrow hshort hmem
      have hpred := (List.mem_filter.mp hmem).2
      simp only [matchesRow, Bool.and_eq_true, decide_eq_true_eq] at hpred
      obtain ⟨hlt, -⟩ := hpred
      omega

/-- Witness for C5 at `[["a","b"],["c"]]`, `i = 1`, `v = "b"`: the short
row `["c"]` is silently dropped. -/
theorem filter_by_column_short_rows_witness :
    1 < (([["a", "b"], ["c"]] : List (List String)).headD []).length ∧
      ∃ out, filter_by_column [["a", "b"], ["c"]] ((1 : Nat) : Int) "b" =
          Except.ok out ∧
        ∀ row ∈ [["a", "b"], ["c"]], row.length ≤ 1 → row ∉ out :=
  ⟨by decide, filter_by_column_short_rows [["a", "b"], ["c"]] 1 "b" (by decide)⟩

/-- C10: `filter_by_column` is idempotent: whenever it succeeds, running
it again with the same column index and target value on its own output
succeeds and returns that output unchanged. -/
theorem filter_by_column_idempotent (data out : List (List String))
    (i : Int) (v : String)
    (h : filter_by_column data i v = Except.ok out) :
    filter_by_column out i v = Except.ok out := by
  cases data with
  | nil =>
    have hout : out = [] := by
      simpa [filter_by_column] using h
    subst hout
    rfl
  | cons first rest =>
    simp only [filter_by_column, List.isEmpty_cons, Bool.false_eq_true,
      if_false, List.headD_cons] at h
    by_cases hneg : i < 0
    · rw [if_pos hneg] at h
      exact absurd h (fun hh => Except.noConfusion hh)
    rw [if_neg hneg] at h
    by_cases hwide : (first.length : Int) ≤ i
    · rw [if_pos hwide] at h
      exact absurd h (fun hh => Except.noConfusion hh)
    rw [if_neg hwide] at h
    injection h with h
    have hall : ∀ row ∈ out, matchesRow i v row = true := by
      intro row hrow
      rw [← h] at hrow
      exact (List.mem_filter.mp hrow).2
    cases out with
    | nil => rfl
    | cons o os =>
      have hpred : matchesRow i v o = true := hall o (List.mem_cons_self o os)
      simp only [matchesRow, Bool.and_eq_true, decide_eq_true_eq] at hpred
      have hfilter : (o :: os).filter (matchesRow i v) = o :: os :=
        List.filter_eq_self.mpr hall
      simp only [filter_by_column, List.isEmpty_cons, Bool.false_eq_true,
        if_false, List.headD_cons]
      rw [if_neg hneg, if_neg (by omega), hfilter]

/-- Witness for C10 at `[["a","b"],["c","d"]]`, `i = 0`, `v = "a"`. -/
theorem filter_by_column_idempotent_witness :
    filter_by_column [["a", "b"], ["c", "d"]] 0 "a" = Except.ok [["a", "b"]] ∧
      filter_by_column [["a", "b"]] 0 "a" = Except.ok [["a", "b"]] :=
  ⟨rfl,
    filter_by_column_idempotent [["a", "b"], ["c", "d"]] [["a", "b"]] 0 "a" rfl⟩

/-- C6: `print_data` on the empty Table prints the title line, the dash
underline, and then exactly the single line `"No data to display"`. -/
theorem print_data_empty_table (title : String) :
    print_data [] title =
      ["\n" ++ title ++ ":", String.mk (List.replicate title.length '-'),
        "No data to display"] := by
  simp [print_data, strRepeat]

/-- The row block of `print_data` re-expressed positionally: line `k`
(0-based) formats row `k` with the 1-based number `k + 1`. -/
theorem enum_map_formatRowLine (l : List (List String)) :
    l.enum.map (fun p => formatRowLine p.1 p.2) =
      (List.range l.length).map (fun k => formatRowLine k (l.getD k [])) := by
  apply List.ext_getElem
  · simp
  · intro n h1 h2
    have hn : n < l.length := by simpa using h1
    simp [List.getElem_map, List.getElem_enum, List.getElem_range,
      List.getD_eq_getElem _ _ hn, List.getElem?_eq_getElem hn]

/-- C7: `print_data` on a non-empty Table prints the title line, an
underline of exactly `title.length` dashes, then one line per row in
order, line `k` (0-based) carrying the 1-based row number `k + 1` and the
row's fields joined by `", "`. -/
theorem print_data_nonempty_format (data : List (List String))
    (title : String) (h : data ≠ []) :
    print_data data title =
      ("\n" ++ title ++ ":") :: String.mk (List.replicate title.length '-') ::
        (List.range data.length).map
          (fun k => fmtWidth3 (k + 1) ++ ": " ++
            String.intercalate ", " (data.getD k [])) := by
  cases data with
  | nil => exact absurd rfl h
  | cons r rs =>
    simp only [print_data, strRepeat, List.isEmpty_cons, Bool.false_eq_true,
      if_false]
    rw [enum_map_formatRowLine]
    simp [formatRowLine]

/-- Witness for C7 at `[["x","y"],["z"]]` with title `"T"`. -/
theorem print_data_nonempty_format_witness :
    ([["x", "y"], ["z"]] : List (List String)) ≠ [] ∧
      print_data [["x", "y"], ["z"]] "T" =
        ("\n" ++ "T" ++ ":") :: String.mk (List.replicate "T".length '-') ::
          (List.range ([["x", "y"], ["z"]] : List (List String)).length).map
            (fun k => fmtWidth3 (k + 1) ++ ": " ++
              String.intercalate ", "
                (([["x", "y"], ["z"]] : List (List String)).getD k [])) :=
  ⟨by decide, print_data_nonempty_format [["x", "y"], ["z"]] "T" (by decide)⟩

/-- C8: with the filesystem modelled as a map from paths to contents,
`read_csv` raises `FileNotFoundError` exactly when the path is absent
from the map (and hence returns no Table in that case). -/
theorem read_csv_not_found_iff (fs : String → Option String) (p : String) :
    read_csv fs p = Except.error ReadError.notFound ↔ fs p = none := by
  cases h : fs p <;> simp [read_csv, h]

end CsvRepo
